import Mathlib

/-
  Verification of the HelixVault privacy-preserving genomic query core.

  Shallow embedding of the Python sources:
    ai-agent/encryption/wallet_crypto.py   (WalletCrypto)
    ai-agent/agent/snp_analyzer.py         (SNPAnalyzer)
    ai-agent/agent/zk_responder.py         (ZKResponder, ProofAggregator)
    ai-agent/agent/genomic_agent.py        (GenomicAgent)

  Byte strings are `List Nat`; the cryptographic primitives (SHA-256,
  HMAC, AES-256-GCM) are modelled symbolically: hashing is an injective
  tagging function and AEAD ciphertexts are records carrying the key,
  nonce, associated data and plaintext, with decryption succeeding
  exactly when key, nonce and associated data match.  gzip is modelled
  as a tagged encoding with a matching partial inverse.  Python
  exceptions are modelled with `Except` values.
-/

/-- Byte strings. -/
abbrev Bytes := List Nat

/-- Symbolic SHA-256: deterministic and collision-free in the model. -/
def sha256 (d : Bytes) : Bytes := 104 :: d

/-- Symbolic HMAC-SHA256 over a key and a message. -/
def hmacSha256 (key msg : Bytes) : Bytes := 72 :: (key ++ 0 :: msg)

/-- Symbolic gzip compression (`gzip.compress`): a tagged encoding. -/
def gzipCompress (d : Bytes) : Bytes := 31 :: 139 :: d

/-- Symbolic gzip decompression (`gzip.decompress`); fails on data that
was not produced by `gzipCompress`, as the Python call raises there. -/
def gzipDecompress (d : Bytes) : Option Bytes :=
  match d with
  | 31 :: 139 :: rest => some rest
  | _ => none

/-- Symbolic AES-GCM ciphertext: records what went into `AESGCM.encrypt`. -/
structure AEADCiphertext where
  key : Bytes
  nonce : Bytes
  aad : Bytes
  plaintext : Bytes
deriving DecidableEq, Repr

/-- Python `AESGCM(key).encrypt(nonce, plaintext, associated_data)`. -/
def aesgcmEncrypt (key nonce plaintext aad : Bytes) : AEADCiphertext :=
  { key := key, nonce := nonce, aad := aad, plaintext := plaintext }

/-- Python `AESGCM(key).decrypt(nonce, ct, associated_data)`: succeeds exactly
when key, nonce and associated data match the ones used at encryption
(the authentication-tag check of GCM, idealised). -/
def aesgcmDecrypt (key nonce : Bytes) (ct : AEADCiphertext) (aad : Bytes) : Option Bytes :=
  if ct.key = key ∧ ct.nonce = nonce ∧ ct.aad = aad then some ct.plaintext else none

/-- Python exceptions that `decrypt_data` can surface. -/
inductive PyError where
  | valueError (msg : String)
  | badGzipFile
deriving DecidableEq, Repr

/-- Python `EncryptedPayload` from wallet_crypto.py (the `tag` field is empty:
AESGCM embeds the tag in the ciphertext). -/
structure EncryptedPayload where
  version : Nat
  algorithm : String
  salt : Bytes
  nonce : Bytes
  ciphertext : AEADCiphertext
  tag : Bytes
  original_hash : Bytes
  compressed : Bool
deriving DecidableEq, Repr

/-- Python `WalletCrypto.encrypt_data(data, key, compress)`.  The fresh random
`nonce` and `salt` drawn by `os.urandom` are explicit parameters. -/
def encrypt_data (data key : Bytes) (compress : Bool) (nonce salt : Bytes) :
    EncryptedPayload :=
  let original_hash := sha256 data
  let plaintext := if compress then gzipCompress data else data
  let ciphertext := aesgcmEncrypt key nonce plaintext original_hash
  { version := 1
    algorithm := "AES-256-GCM"
    salt := salt
    nonce := nonce
    ciphertext := ciphertext
    tag := []
    original_hash := original_hash
    compressed := compress }

/-- Python `WalletCrypto.decrypt_data(payload, key)`.  The AEAD failure is
re-raised as `ValueError("Decryption failed: ...")` (cryptography's
`InvalidTag` renders as an empty message); a failing `gzip.decompress`
raises outside the try block; a hash mismatch raises
`ValueError("Data integrity check failed")`. -/
def decrypt_data (payload : EncryptedPayload) (key : Bytes) : Except PyError Bytes :=
  match aesgcmDecrypt key payload.nonce payload.ciphertext payload.original_hash with
  | none => .error (.valueError "Decryption failed: ")
  | some plaintext =>
    match (if payload.compressed then gzipDecompress plaintext else some plaintext) with
    | none => .error .badGzipFile
    | some data =>
      if sha256 data = payload.original_hash then .ok data
      else .error (.valueError "Data integrity check failed")

/-- A payload whose AEAD layer verifies (key, nonce and associated data
match) but whose stored hash is not the hash of the carried plaintext:
the hash check fails after a successful tag check. -/
def mismatchedHashPayload : EncryptedPayload :=
  { version := 1
    algorithm := "AES-256-GCM"
    salt := [6]
    nonce := [5]
    ciphertext := aesgcmEncrypt [0] [5] [1, 2, 3] (sha256 [7])
    tag := []
    original_hash := sha256 [7]
    compressed := false }


/- ==================== Python string-operation model ====================
   snp_analyzer.py works on decoded text.  Strings are Lean `String`s;
   the Python primitives used by the source (strip, split, lower, upper,
   startswith, substring containment, replace, int(), sorted) are
   modelled below, ASCII case mapping standing in for str.lower/upper
   on the ASCII data this system handles. -/

/-- The characters Python str.strip removes. -/
def isPySpace (c : Char) : Bool :=
  c = ' ' ∨ c = '\t' ∨ c = '\n' ∨ c = '\r' ∨ c = '\x0b' ∨ c = '\x0c'

/-- Python `str.strip()`. -/
def pyStrip (s : String) : String :=
  ⟨((s.data.dropWhile isPySpace).reverse.dropWhile isPySpace).reverse⟩

/-- ASCII lower-casing of one character. -/
def charLower (c : Char) : Char :=
  if 'A' ≤ c ∧ c ≤ 'Z' then Char.ofNat (c.toNat + 32) else c

/-- ASCII upper-casing of one character. -/
def charUpper (c : Char) : Char :=
  if 'a' ≤ c ∧ c ≤ 'z' then Char.ofNat (c.toNat - 32) else c

/-- Python `str.lower()`. -/
def pyLower (s : String) : String := ⟨s.data.map charLower⟩

/-- Python `str.upper()`. -/
def pyUpper (s : String) : String := ⟨s.data.map charUpper⟩

/-- Split a character list at every occurrence of `sep`. -/
def splitChAux (sep : Char) : List Char → List Char → List (List Char)
  | [], cur => [cur.reverse]
  | c :: rest, cur =>
    if c = sep then cur.reverse :: splitChAux sep rest []
    else splitChAux sep rest (c :: cur)

/-- Python `str.split(sep)` for a one-character separator. -/
def pySplitCh (sep : Char) (s : String) : List String :=
  (splitChAux sep s.data []).map fun l => ⟨l⟩

/-- Does the second list start with the first? -/
def listStarts : List Char → List Char → Bool
  | [], _ => true
  | _ :: _, [] => false
  | p :: ps, c :: cs => p = c && listStarts ps cs

/-- Python `s.startswith(pat)`. -/
def pyStarts (s pat : String) : Bool := listStarts pat.data s.data

/-- Does the list contain the first list as a contiguous run? -/
def listContainsSub (pat : List Char) : List Char → Bool
  | [] => pat.isEmpty
  | c :: rest => listStarts pat (c :: rest) || listContainsSub pat rest

/-- Python `pat in s` on strings. -/
def pyContains (s pat : String) : Bool := listContainsSub pat.data s.data

/-- Python `str.replace(a, b)` for one-character `a` and `b`. -/
def pyReplaceChar (a b : Char) (s : String) : String :=
  ⟨s.data.map fun c => if c = a then b else c⟩

/-- Replace every occurrence of `pat` by `repl`, fuelled by the input
length (one unit of fuel is spent per consumed character, so the fuel
used below never runs out). -/
def listReplaceFuel (pat repl : List Char) : Nat → List Char → List Char
  | _, [] => []
  | 0, l => l
  | f + 1, c :: rest =>
    if pat ≠ [] ∧ listStarts pat (c :: rest) then
      repl ++ listReplaceFuel pat repl f ((c :: rest).drop pat.length)
    else c :: listReplaceFuel pat repl f rest

/-- Python `str.replace(pat, repl)`. -/
def pyReplaceStr (pat repl s : String) : String :=
  ⟨listReplaceFuel pat.data repl.data s.data.length s.data⟩

/-- Value of an ASCII digit. -/
def digitVal (c : Char) : Option Nat :=
  if '0' ≤ c ∧ c ≤ '9' then some (c.toNat - 48) else none

/-- Accumulate the decimal digits of a character list. -/
def digitsToNatAux : List Char → Nat → Option Nat
  | [], acc => some acc
  | c :: rest, acc =>
    match digitVal c with
    | none => none
    | some d => digitsToNatAux rest (acc * 10 + d)

/-- Python `int(s)` (the callers strip whitespace first): an optional
sign followed by at least one decimal digit; anything else raises
ValueError, modelled as `none`. -/
def pyInt? (s : String) : Option Int :=
  match s.data with
  | [] => none
  | '-' :: rest =>
    if rest = [] then none else (digitsToNatAux rest 0).map fun n => -(n : Int)
  | '+' :: rest =>
    if rest = [] then none else (digitsToNatAux rest 0).map fun n => (n : Int)
  | l => (digitsToNatAux l 0).map fun n => (n : Int)

/-- Insert a character into an ascending list, after equal characters. -/
def insertChar (c : Char) : List Char → List Char
  | [] => [c]
  | d :: ds => if c ≤ d then c :: d :: ds else d :: insertChar c ds

/-- Sort a character list ascending. -/
def sortChars : List Char → List Char
  | [] => []
  | c :: cs => insertChar c (sortChars cs)

/-- Python `''.join(sorted(s))`. -/
def pySortedStr (s : String) : String := ⟨sortChars s.data⟩

/-- Python `lst[i]` on a string list: negative indices count from the
end; an out-of-range index raises IndexError, modelled as `none`. -/
def pyListGet (l : List String) (i : Int) : Option String :=
  if 0 ≤ i then l[i.toNat]?
  else if (-i).toNat ≤ l.length then l[l.length - (-i).toNat]? else none

/-- Python-dict lookup on an insertion-ordered association list. -/
def dictGet {α : Type} (k : String) : List (String × α) → Option α
  | [] => none
  | (k', v) :: rest => if k' = k then some v else dictGet k rest

/-- Python-dict assignment: overwrite in place, or append a new key. -/
def dictInsert {α : Type} (k : String) (v : α) : List (String × α) → List (String × α)
  | [] => [(k, v)]
  | (k', v') :: rest => if k' = k then (k, v) :: rest else (k', v') :: dictInsert k v rest

/- ==================== snp_analyzer.py ==================== -/

/-- Python `GeneFileFormat` from snp_analyzer.py. -/
inductive GeneFileFormat where
  | twentyThreeAndMe
  | ancestry
  | vcf
  | unknown
deriving DecidableEq, Repr

/-- Python `SNPAnalyzer._parsed_data`: lowercased rsID →
(chromosome, position, genotype), an insertion-ordered Python dict. -/
abbrev ParsedData := List (String × (String × Int × String))

/-- Python `SNPAnalyzer.detect_format(content)`: scan the first 20 lines for
header tokens, then fall back to the structural heuristic. -/
def detect_format (content : String) : GeneFileFormat :=
  let lines := (pySplitCh '\n' (pyStrip content)).take 20
  match lines.findSome? (fun line =>
    if pyStarts line "# rsid" ∨ pyContains (pyLower line) "chromosome\tposition\tgenotype" then
      some GeneFileFormat.twentyThreeAndMe
    else if pyContains line "rsID\tchromosome\tposition\tallele1\tallele2" then
      some GeneFileFormat.ancestry
    else if pyStarts line "##fileformat=VCF" then
      some GeneFileFormat.vcf
    else none) with
  | some fmt => fmt
  | none =>
    match lines.findSome? (fun line =>
      if pyStarts line "#" then none
      else if 4 ≤ (pySplitCh '\t' line).length ∧
          pyStarts ((pySplitCh '\t' line).headD "") "rs" then
        some GeneFileFormat.twentyThreeAndMe
      else none) with
    | some fmt => fmt
    | none => GeneFileFormat.unknown

/-- Python `SNPAnalyzer._vcf_genotype_to_string(ref, alt, gt)`: index the
REF/ALT allele list by the genotype-index field, dropping the
missing-allele marker `.`; any ValueError or IndexError yields `"??"`. -/
def vcf_genotype_to_string (ref alt gt : String) : String :=
  let alleles := ref :: pySplitCh ',' alt
  let indices := pySplitCh '/' (pyReplaceChar '|' '/' gt)
  let joined : Option String := indices.foldl (fun acc i =>
    match acc with
    | none => none
    | some s =>
      if i = "." then some s
      else
        match pyInt? i with
        | none => none
        | some n =>
          match pyListGet alleles n with
          | none => none
          | some a => some (s ++ a)) (some "")
  match joined with
  | some s => s
  | none => "??"

/-- One iteration of the `parse_file` loop: skip comment and blank
lines, extract fields positionally per detected format, and skip any
line whose position field fails `int()` (ValueError). -/
def parseLine (fmt : GeneFileFormat) (acc : ParsedData) (line : String) : ParsedData :=
  if pyStarts line "#" ∨ pyStrip line = "" then acc
  else
    match fmt with
    | .twentyThreeAndMe =>
      let parts := pySplitCh '\t' line
      if 4 ≤ parts.length then
        match pyInt? (pyStrip (parts.getD 2 "")) with
        | none => acc
        | some pos =>
          dictInsert (pyLower (pyStrip (parts.getD 0 "")))
            (pyStrip (parts.getD 1 ""), pos, pyUpper (pyStrip (parts.getD 3 ""))) acc
      else acc
    | .ancestry =>
      let parts := pySplitCh '\t' line
      if 5 ≤ parts.length then
        match pyInt? (pyStrip (parts.getD 2 "")) with
        | none => acc
        | some pos =>
          dictInsert (pyLower (pyStrip (parts.getD 0 "")))
            (pyStrip (parts.getD 1 ""), pos,
              pyUpper (pyStrip (parts.getD 3 "" ++ parts.getD 4 ""))) acc
      else acc
    | .vcf =>
      let parts := pySplitCh '\t' line
      if 10 ≤ parts.length ∧ pyStarts (parts.getD 2 "") "rs" then
        match pyInt? (pyStrip (parts.getD 1 "")) with
        | none => acc
        | some pos =>
          dictInsert (pyLower (pyStrip (parts.getD 2 "")))
            (pyReplaceStr "chr" "" (pyStrip (parts.getD 0 "")), pos,
              vcf_genotype_to_string (parts.getD 3 "") (parts.getD 4 "")
                ((pySplitCh ':' (parts.getD 9 "")).headD "")) acc
      else acc
    | .unknown => acc

/-- Python `SNPAnalyzer.parse_file(content)`: detect the format and fold the
per-line parser over all lines, starting from the cleared map. -/
def parse_file (content : String) : ParsedData :=
  (pySplitCh '\n' (pyStrip content)).foldl (parseLine (detect_format content)) []

/-- One genotype interpretation from `SNP_DATABASE` (`prediction` and
`confidence`; confidences are exact two-decimal constants in the
source, represented here in hundredths). -/
structure VariantInfo where
  prediction : String
  confidence : Nat
deriving DecidableEq, Repr

/-- One `SNP_DATABASE` entry. -/
structure DBEntry where
  gene : String
  trait : String
  chromosome : String
  clinical : Bool
  variants : List (String × VariantInfo)
  description : String
deriving DecidableEq, Repr

/-- Python `SNPAnalyzer.SNP_DATABASE`, entry for entry. -/
def SNP_DATABASE : List (String × DBEntry) := [
  ("rs12913832",
    { gene := "HERC2", trait := "eye_color", chromosome := "15",
      clinical := false,
      variants := [("GG", ⟨"blue", 85⟩), ("AG", ⟨"green_hazel", 70⟩), ("AA", ⟨"brown", 90⟩)],
      description := "Primary determinant of blue vs brown eye color" }),
  ("rs1800407",
    { gene := "OCA2", trait := "eye_color", chromosome := "15",
      clinical := false,
      variants := [("CC", ⟨"brown_modifier", 60⟩), ("CT", ⟨"mixed", 50⟩),
      ("TT", ⟨"blue_modifier", 65⟩)],
      description := "Secondary eye color modifier" }),
  ("rs4988235",
    { gene := "MCM6", trait := "lactose_tolerance", chromosome := "2",
      clinical := false,
      variants := [("TT", ⟨"lactose_tolerant", 95⟩), ("CT", ⟨"likely_tolerant", 75⟩),
      ("CC", ⟨"lactose_intolerant", 90⟩)],
      description := "European lactase persistence variant" }),
  ("rs1815739",
    { gene := "ACTN3", trait := "muscle_type", chromosome := "11",
      clinical := false,
      variants := [("CC", ⟨"power_athlete", 70⟩), ("CT", ⟨"mixed", 60⟩),
      ("TT", ⟨"endurance_athlete", 65⟩)],
      description := "Alpha-actinin-3 - fast-twitch muscle fiber protein" }),
  ("rs762551",
    { gene := "CYP1A2", trait := "caffeine_metabolism", chromosome := "15",
      clinical := false,
      variants := [("AA", ⟨"fast_metabolizer", 80⟩), ("AC", ⟨"moderate_metabolizer", 65⟩),
      ("CC", ⟨"slow_metabolizer", 75⟩)],
      description := "Caffeine metabolism speed" }),
  ("rs671",
    { gene := "ALDH2", trait := "alcohol_flush", chromosome := "12",
      clinical := false,
      variants := [("GG", ⟨"normal", 95⟩), ("AG", ⟨"mild_flush", 85⟩),
      ("AA", ⟨"severe_flush", 95⟩)],
      description := "Alcohol flush reaction (Asian glow)" }),
  ("rs713598",
    { gene := "TAS2R38", trait := "bitter_taste", chromosome := "7",
      clinical := false,
      variants := [("CC", ⟨"non_taster", 80⟩), ("CG", ⟨"medium_taster", 70⟩),
      ("GG", ⟨"super_taster", 85⟩)],
      description := "Ability to taste bitter compounds like PTC" }),
  ("rs2282679",
    { gene := "GC", trait := "vitamin_d", chromosome := "4",
      clinical := false,
      variants := [("AA", ⟨"higher_levels", 65⟩), ("AG", ⟨"normal_levels", 55⟩),
      ("GG", ⟨"lower_levels", 70⟩)],
      description := "Vitamin D binding protein variant" }),
  ("rs80357906",
    { gene := "BRCA1", trait := "brca1_status", chromosome := "17",
      clinical := true,
      variants := [("normal", ⟨"no_variant", 99⟩), ("variant", ⟨"variant_detected", 99⟩)],
      description := "BRCA1 pathogenic variant - consult genetic counselor" }),
  ("rs72921001",
    { gene := "OR6A2", trait := "cilantro_taste", chromosome := "11",
      clinical := false,
      variants := [("CC", ⟨"tastes_normal", 70⟩), ("CT", ⟨"slightly_soapy", 60⟩),
      ("TT", ⟨"tastes_like_soap", 80⟩)],
      description := "Cilantro soapy taste perception" }),
  ("rs17822931",
    { gene := "ABCC11", trait := "earwax_type", chromosome := "16",
      clinical := false,
      variants := [("CC", ⟨"wet_earwax", 95⟩), ("CT", ⟨"wet_earwax", 90⟩),
      ("TT", ⟨"dry_earwax", 95⟩)],
      description := "Earwax type - also affects body odor" })]

/-- Python `SNPAnalyzer.TRAIT_SNPS`: trait → ordered supporting rsID list. -/
def TRAIT_SNPS : List (String × List String) := [
  ("eye_color", ["rs12913832", "rs1800407"]),
  ("lactose_tolerance", ["rs4988235"]),
  ("muscle_type", ["rs1815739"]),
  ("caffeine_metabolism", ["rs762551"]),
  ("alcohol_flush", ["rs671"]),
  ("bitter_taste", ["rs713598"]),
  ("vitamin_d", ["rs2282679"]),
  ("cilantro_taste", ["rs72921001"]),
  ("earwax_type", ["rs17822931"]),
  ("brca1_status", ["rs80357906"])]

/-- Python `SNPResult` from snp_analyzer.py. -/
structure SNPResult where
  rsid : String
  chromosome : String
  position : Int
  genotype : String
  found : Bool
  gene : Option String
  trait : Option String
  interpretation : Option String
deriving DecidableEq, Repr

/-- Python `SNPAnalyzer.lookup_snp(rsid)` over parsed data `d`. -/
def lookup_snp (d : ParsedData) (rsid : String) : SNPResult :=
  match dictGet (pyLower rsid) d with
  | none =>
    { rsid := rsid, chromosome := "", position := 0, genotype := "", found := false,
      gene := none, trait := none, interpretation := none }
  | some (chromosome, position, genotype) =>
    let db := dictGet (pyLower rsid) SNP_DATABASE
    { rsid := rsid, chromosome := chromosome, position := position, genotype := genotype,
      found := true,
      gene := db.map (·.gene),
      trait := db.map (·.trait),
      interpretation := db.bind fun e => (dictGet genotype e.variants).map (·.prediction) }

/-- Python `SNPAnalyzer.check_snp_match(rsid, target_genotype)`: presence
check, or order-insensitive genotype comparison when a target is given
(a `None` or empty target is falsy in Python and means no target). -/
def check_snp_match (d : ParsedData) (rsid : String) (target : Option String) :
    Bool × Option String :=
  let result := lookup_snp d rsid
  if result.found = false then (false, none)
  else
    match target with
    | some t =>
      if t = "" then (true, some result.genotype)
      else
        (pySortedStr (pyUpper t) = pySortedStr (pyUpper result.genotype),
          some result.genotype)
    | none => (true, some result.genotype)

/-- Python `TraitPrediction` from snp_analyzer.py. -/
structure TraitPrediction where
  trait : String
  prediction : String
  confidence : Nat
  supporting_snps : List SNPResult
  description : String
deriving DecidableEq, Repr

/-- The collection loop of `predict_trait`: walk the trait's supporting
rsIDs in order, and gather the found `SNPResult`s together with the
(prediction, confidence) pairs of catalogued genotypes. -/
def collectPredictions (d : ParsedData) (snp_ids : List String) :
    List SNPResult × List (String × Nat) :=
  snp_ids.foldl (fun acc rsid =>
    let result := lookup_snp d rsid
    if result.found then
      match dictGet (pyLower rsid) SNP_DATABASE with
      | some db =>
        match dictGet result.genotype db.variants with
        | some vi => (acc.1 ++ [result], acc.2 ++ [(vi.prediction, vi.confidence)])
        | none => (acc.1 ++ [result], acc.2)
      | none => (acc.1 ++ [result], acc.2)
    else acc) ([], [])

/-- Stable insertion into a descending-confidence list: a new element
goes after every element of greater or equal confidence. -/
def insertDesc (x : String × Nat) : List (String × Nat) → List (String × Nat)
  | [] => [x]
  | y :: ys => if y.2 ≤ x.2 then x :: y :: ys else y :: insertDesc x ys

/-- The stable descending-by-confidence sort performed by
`predictions.sort(key=lambda x: x[1], reverse=True)` (Python's sort is
stable: ties keep their first-encountered order). -/
def stableSortDesc : List (String × Nat) → List (String × Nat)
  | [] => []
  | x :: xs => insertDesc x (stableSortDesc xs)

/-- Python `SNPAnalyzer.predict_trait(trait)` over parsed data `d`. -/
def predict_trait (d : ParsedData) (trait : String) : Option TraitPrediction :=
  match dictGet trait TRAIT_SNPS with
  | none => none
  | some snp_ids =>
    let collected := collectPredictions d snp_ids
    match stableSortDesc collected.2 with
    | [] => none
    | (best_prediction, confidence) :: _ =>
      some
        { trait := trait, prediction := best_prediction, confidence := confidence,
          supporting_snps := collected.1,
          description :=
            match dictGet (pyLower (snp_ids.headD "")) SNP_DATABASE with
            | some e => e.description
            | none => "" }

/-- Query parameters accepted by `analyze_for_bounty` (`params.get`
returning `None` is the `none` case). -/
structure BountyParams where
  rsid : Option String
  genotype : Option String
  trait : Option String
  rsids : List String
deriving DecidableEq, Repr

/-- The result dict of `analyze_for_bounty`, one constructor per shape
it can return. -/
inductive BountyResult where
  | error (msg : String)
  | snpCheck (rsid : String) (found matched has_variant : Bool)
  | traitNotFound (trait : String)
  | traitFound (trait prediction : String) (confidence : Nat)
  | variantSearch (results : List (String × Bool)) (total_found : Nat)
deriving DecidableEq, Repr

/-- Python `SNPAnalyzer.analyze_for_bounty(query_type, params)` over parsed
data `d`.  In the SNP_CHECK branch `matches` recomputes with exact
string equality, per the source. -/
def analyze_for_bounty (d : ParsedData) (query_type : String) (params : BountyParams) :
    BountyResult :=
  if query_type = "SNP_CHECK" then
    match params.rsid with
    | none => .error "Missing rsid parameter"
    | some rsid =>
      if rsid = "" then .error "Missing rsid parameter"
      else
        let fg := check_snp_match d rsid params.genotype
        let notarget := params.genotype = none ∨ params.genotype = some ""
        .snpCheck rsid fg.1
          (if notarget then fg.1
           else match fg.2 with
             | some g => g = params.genotype.getD ""
             | none => false)
          fg.1
  else if query_type = "TRAIT_QUERY" then
    match params.trait with
    | none => .error "Missing trait parameter"
    | some trait =>
      if trait = "" then .error "Missing trait parameter"
      else
        match predict_trait d trait with
        | none => .traitNotFound trait
        | some p => .traitFound trait p.prediction p.confidence
  else if query_type = "VARIANT_SEARCH" then
    let results := params.rsids.foldl
      (fun acc rsid => dictInsert rsid (check_snp_match d rsid none).1 acc) []
    .variantSearch results (results.filter (·.2)).length
  else .error ("Unknown query type: " ++ query_type)

/-- Python `SNPAnalyzer.clear_data` empties the parsed map (used by the
orchestrator model below). -/
def clear_data : ParsedData := []

/- ==================== zk_responder.py ==================== -/

/-- A proof's `timestamp` string as seen by `datetime.fromisoformat`:
either it parses to a time (seconds since the epoch) or it raises a
ValueError carrying the offending string. -/
inductive PyTimestamp where
  | valid (t : Int)
  | invalid (s : String)
deriving DecidableEq, Repr

/-- Python `str(e)` of the ValueError raised by `datetime.fromisoformat`. -/
def fromisoformatError (s : String) : String :=
  "Invalid isoformat string: '" ++ s ++ "'"

/-- Python `ZKProof` from zk_responder.py; the public-inputs dict is modelled
as a string-keyed association list of strings. -/
structure ZKProof where
  proof_type : String
  commitment : Bytes
  challenge : Bytes
  response : Bytes
  public_inputs : List (String × String)
  timestamp : PyTimestamp
  version : Nat
deriving DecidableEq, Repr

/-- Python `ProofVerification` from zk_responder.py; `verification_time` holds
the `datetime.utcnow()` of the verifying call. -/
structure ProofVerification where
  valid : Bool
  proof_type : String
  public_inputs : List (String × String)
  verification_time : Int
  error : Option String
deriving DecidableEq, Repr

/-- Python `ZKResponder.verify_proof(proof)`: the verifier's derived secret
`secret` and the current time `now` are explicit parameters.  As in the
source, the expiry check runs first, then the 32-byte format check,
then the constant-time HMAC comparison; a timestamp that
`datetime.fromisoformat` cannot parse raises inside the try block, is
caught by the except branch, and comes back as the exception text in
`error` with `valid=False`. -/
def verify_proof (secret : Bytes) (now : Int) (proof : ZKProof) : ProofVerification :=
  match proof.timestamp with
  | .invalid s =>
    { valid := false, proof_type := proof.proof_type,
      public_inputs := proof.public_inputs, verification_time := now,
      error := some (fromisoformatError s) }
  | .valid t =>
    if now - t > 3600 then
      { valid := false, proof_type := proof.proof_type,
        public_inputs := proof.public_inputs, verification_time := now,
        error := some "Proof has expired" }
    else if proof.commitment.length ≠ 32 ∨ proof.challenge.length ≠ 32 then
      { valid := false, proof_type := proof.proof_type,
        public_inputs := proof.public_inputs, verification_time := now,
        error := some "Invalid proof format" }
    else
      let expected := hmacSha256 secret (proof.commitment ++ proof.challenge)
      let ok : Bool := decide (proof.response = expected)
      { valid := ok, proof_type := proof.proof_type,
        public_inputs := proof.public_inputs, verification_time := now,
        error := if ok then none else some "Response verification failed" }

/-- One pairing pass of the Merkle loop: replace adjacent pairs with
`sha256(left + right)`; a trailing unpaired element cannot occur on a
padded level. -/
def pairHash : List Bytes → List Bytes
  | a :: b :: rest => sha256 (a ++ b) :: pairHash rest
  | _ => []

/-- One iteration of the `get_merkle_root` while-loop: duplicate the
last leaf when the level has odd length, then pair-hash. -/
def merkleStep (leaves : List Bytes) : List Bytes :=
  pairHash (if leaves.length % 2 = 1 then leaves ++ [leaves.getLastD []] else leaves)

/-- The `while len(leaves) > 1` loop of `get_merkle_root`, fuelled by
the level length (each iteration at least halves a level of length ≥ 2,
so the fuel provided below never runs out). -/
def merkleLoop : Nat → List Bytes → List Bytes
  | 0, leaves => leaves
  | f + 1, leaves => if leaves.length ≤ 1 then leaves else merkleLoop f (merkleStep leaves)

/-- The Merkle root of a non-empty leaf level: run the while-loop to a
single node and return it (`leaves[0]`). -/
def merkleRootOfLeaves (leaves : List Bytes) : Bytes :=
  (merkleLoop leaves.length leaves).headD []

/-- Python `ProofAggregator.get_merkle_root()` over the held ordered proof
list: the all-zero 32-byte value for an empty aggregator, otherwise the
single leaf remaining after the loop over the commitments. -/
def get_merkle_root (proofs : List ZKProof) : Bytes :=
  if proofs = [] then List.replicate 32 0
  else merkleRootOfLeaves (proofs.map (·.commitment))

/- ==================== genomic_agent.py ==================== -/

/-- Python `QueryStatus` from genomic_agent.py. -/
inductive QueryStatus where
  | pending
  | processing
  | completed
  | failed
  | rejected
deriving DecidableEq, Repr

/-- The mutable agent state touched by `process_query`: the analyzer's
parsed-record map and detected format, the keys of the
`_active_sessions` dict, and an instrumentation counter of
`clear_data()` calls. -/
structure AgentState where
  parsedData : ParsedData
  fileFormat : GeneFileFormat
  activeSessions : List String
  clearCount : Nat
deriving DecidableEq, Repr

/-- Python `SNPAnalyzer.clear_data()` on the agent state: empty the map, reset
the format, and count the call. -/
def agentClearData (s : AgentState) : AgentState :=
  { s with parsedData := [], fileFormat := .unknown, clearCount := s.clearCount + 1 }

/-- The `if session_id in self._active_sessions: del ...` of the
finally block. -/
def removeSession (sid : String) (s : AgentState) : AgentState :=
  { s with activeSessions := s.activeSessions.filter fun x => decide (x ≠ sid) }

/-- Bytes of a string (UTF code points), for feeding text to hashes. -/
def strBytes (s : String) : Bytes := s.data.map Char.toNat

/-- Python `GenomicAgent._generate_zk_proof`: a commitment hash over the query
and result (the JSON rendering of the result dict is modelled by the
`Repr` rendering). -/
def generate_zk_proof (query_id query_type : String) (token_id : Int)
    (result : BountyResult) : Bytes :=
  sha256 (strBytes query_id ++ strBytes query_type ++ [token_id.toNat] ++
    sha256 (strBytes (reprStr result)))

/-- Python `GenomicAgent._hash_response(query_id, result)` (JSON modelled by
`Repr` as above). -/
def hash_response (query_id : String) (result : BountyResult) : Bytes :=
  sha256 (strBytes (query_id ++ ":" ++ reprStr result))

/-- Python `QueryResponse` from genomic_agent.py (`timestamp` is the
`datetime.utcnow()` of the call). -/
structure QueryResponse where
  query_id : String
  status : QueryStatus
  result : Option BountyResult
  zk_proof : Option Bytes
  response_hash : Bytes
  timestamp : Int
  error : Option String
deriving DecidableEq, Repr

/-- Python `GenomicAgent._error_response(query, error)`. -/
def error_response (query_id : String) (now : Int) (msg : String) : QueryResponse :=
  { query_id := query_id, status := .failed, result := none, zk_proof := none,
    response_hash := [], timestamp := now, error := some msg }

/-- How the analysis steps 3–5 of `process_query` end, as far as
control flow is concerned: either no exception is raised, or an
exception with message `msg` is raised somewhere in parsing, analysis
or proof generation and lands in the `except` branch (the parsed map
may by then already be populated; the branch below reflects that, and
the finally block clears it either way). -/
inductive StepOutcome where
  | ok
  | raises (msg : String)
deriving DecidableEq, Repr

/-- The state update of `self.analyzer.parse_file(decrypted_data)`:
populate the parsed-record map and remember the detected format. -/
def setParsed (content : String) (s : AgentState) : AgentState :=
  { s with parsedData := parse_file content, fileFormat := detect_format content }

/-- Python `GenomicAgent.process_query`: the IPFS fetch result and the
decryption result are explicit parameters (`none` for a failure; the
source also treats empty bytes and the empty string as falsy failures).
The returned pair is (response, agent state after the finally block).
Python's try/finally semantics are embedded by applying the finally
block — `clear_data()` plus the session-dict deletion — to every exit
path of the body. -/
def process_query (query_id query_type : String) (params : BountyParams)
    (session_id : String) (now : Int) (token_id : Int)
    (fetched : Option Bytes) (decrypted : Option String)
    (step : StepOutcome) (s : AgentState) : QueryResponse × AgentState :=
  let body : QueryResponse × AgentState :=
    match fetched with
    | none => (error_response query_id now "Failed to fetch data from IPFS", s)
    | some bs =>
      if bs = [] then (error_response query_id now "Failed to fetch data from IPFS", s)
      else
        match decrypted with
        | none => (error_response query_id now "Failed to decrypt data", s)
        | some content =>
          if content = "" then (error_response query_id now "Failed to decrypt data", s)
          else
            match step with
            | .raises msg =>
              (error_response query_id now msg, setParsed content s)
            | .ok =>
              let s1 : AgentState := setParsed content s
              let result := analyze_for_bounty s1.parsedData query_type params
              ({ query_id := query_id, status := .completed, result := some result,
                 zk_proof := some (generate_zk_proof query_id query_type token_id result),
                 response_hash := hash_response query_id result,
                 timestamp := now, error := none }, s1)
  (body.1, removeSession session_id (agentClearData body.2))

/-- Modelled from the spec's words for C7: the prediction pair with
strictly highest confidence, ties broken in favour of the
first-encountered entry — take the head unless a strictly more
confident entry appears later. -/
def firstMaxPred : List (String × Nat) → Option (String × Nat)
  | [] => none
  | p :: ps =>
    match firstMaxPred ps with
    | none => some p
    | some q => some (if p.2 < q.2 then q else p)

/-- All genotype values stored in a parsed map are uppercase (stable
under `str.upper`). -/
def GenoOK (d : ParsedData) : Prop :=
  ∀ k c p g, dictGet k d = some (c, p, g) → pyUpper g = g

/- ==================== Theorems ==================== -/

/-- C1: for every byte string, every key, both compress settings (and
every choice of fresh nonce and salt), decrypting an encryption returns
exactly the original plaintext. -/
theorem decrypt_encrypt_roundtrip (data key : Bytes) (compress : Bool)
    (nonce salt : Bytes) :
    decrypt_data (encrypt_data data key compress nonce salt) key = .ok data := by
  cases compress <;>
    simp [decrypt_data, encrypt_data, aesgcmDecrypt, aesgcmEncrypt,
      gzipDecompress, gzipCompress]

/-- C2 (counterexample): the two failure causes of `decrypt_data` are
distinguishable — an AEAD tag failure raises
`ValueError("Decryption failed: ...")` while a post-decompression hash
mismatch raises `ValueError("Data integrity check failed")`, so they are
not surfaced as one indistinguishable error. -/
theorem decrypt_data_errors_distinguishable_cex :
    decrypt_data (encrypt_data [1, 2, 3] [0] false [5] [6]) [9] =
      .error (.valueError "Decryption failed: ") ∧
    decrypt_data mismatchedHashPayload [0] =
      .error (.valueError "Data integrity check failed") ∧
    (PyError.valueError "Decryption failed: ") ≠
      (PyError.valueError "Data integrity check failed") := by
  refine ⟨rfl, rfl, by decide⟩

/-- C2 (amended): whenever `decrypt_data` fails the AEAD check or the
hash check it raises a `ValueError` and returns no plaintext — it never
returns data whose recomputed hash differs from the stored hash — but
the two causes carry different messages, so they are distinguishable:
the AEAD failure raises `ValueError("Decryption failed: ...")` and the
hash mismatch raises `ValueError("Data integrity check failed")`. -/
theorem decrypt_data_failure_modes (payload : EncryptedPayload) (key : Bytes) :
    (∀ d, decrypt_data payload key = .ok d → sha256 d = payload.original_hash) ∧
    (aesgcmDecrypt key payload.nonce payload.ciphertext payload.original_hash = none →
      decrypt_data payload key = .error (.valueError "Decryption failed: ")) ∧
    (∀ pt d,
      aesgcmDecrypt key payload.nonce payload.ciphertext payload.original_hash = some pt →
      (if payload.compressed then gzipDecompress pt else some pt) = some d →
      sha256 d ≠ payload.original_hash →
      decrypt_data payload key = .error (.valueError "Data integrity check failed")) := by
  refine ⟨?_, ?_, ?_⟩
  · intro d hd
    unfold decrypt_data at hd
    cases h : aesgcmDecrypt key payload.nonce payload.ciphertext payload.original_hash with
    | none =>
      simp only [h] at hd
      exact absurd hd (by simp)
    | some pt =>
      simp only [h] at hd
      cases h2 : (if payload.compressed then gzipDecompress pt else some pt) with
      | none =>
        simp only [h2] at hd
        exact absurd hd (by simp)
      | some data =>
        simp only [h2] at hd
        by_cases h3 : sha256 data = payload.original_hash
        · simp only [h3, if_true] at hd
          cases hd
          exact h3
        · simp only [h3, if_false, reduceIte] at hd
          exact absurd hd (by simp)
  · intro h
    unfold decrypt_data
    simp only [h]
  · intro pt d h1 h2 h3
    unfold decrypt_data
    simp only [h1, h2, if_neg h3]

/-- C2 (witness): the amended theorem applied at concrete inputs — a
wrong-key decryption yields the AEAD-failure message, and
`mismatchedHashPayload` yields the hash-mismatch message. -/
theorem decrypt_data_failure_modes_witness :
    decrypt_data (encrypt_data [4] [0] false [5] [6]) [9] =
      .error (.valueError "Decryption failed: ") ∧
    decrypt_data mismatchedHashPayload [0] =
      .error (.valueError "Data integrity check failed") :=
  ⟨(decrypt_data_failure_modes (encrypt_data [4] [0] false [5] [6]) [9]).2.1 (by decide),
   (decrypt_data_failure_modes mismatchedHashPayload [0]).2.2 [1, 2, 3] [1, 2, 3]
     (by decide) rfl (by decide)⟩

/-- The second component of `process_query` is always the finally block
applied to a state with the caller's clear-count. -/
theorem process_query_snd_shape (query_id query_type : String) (params : BountyParams)
    (session_id : String) (now token_id : Int) (fetched : Option Bytes)
    (decrypted : Option String) (step : StepOutcome) (s : AgentState) :
    ∃ s2 : AgentState, s2.clearCount = s.clearCount ∧
      (process_query query_id query_type params session_id now token_id
        fetched decrypted step s).2 = removeSession session_id (agentClearData s2) := by
  unfold process_query
  rcases fetched with _ | bs
  · exact ⟨s, rfl, rfl⟩
  · by_cases hbs : bs = []
    · exact ⟨s, rfl, by simp [hbs]⟩
    · rcases decrypted with _ | content
      · exact ⟨s, rfl, by simp [hbs]⟩
      · by_cases hc : content = ""
        · exact ⟨s, rfl, by simp [hbs, hc]⟩
        · rcases step with _ | msg
          · exact ⟨setParsed content s, rfl, by simp [hbs, hc]⟩
          · exact ⟨setParsed content s, rfl, by simp [hbs, hc]⟩

/-- C3: on every exit path of `process_query` — fetch failure,
decryption failure, an exception anywhere in parsing/analysis/proof
generation, or successful completion — the state after the call has an
empty parsed-record map and reset format, the session's entry is gone
from the active-session dict, and `clear_data` ran exactly once. -/
theorem process_query_always_clears (query_id query_type : String) (params : BountyParams)
    (session_id : String) (now token_id : Int) (fetched : Option Bytes)
    (decrypted : Option String) (step : StepOutcome) (s : AgentState) :
    (process_query query_id query_type params session_id now token_id
        fetched decrypted step s).2.parsedData = [] ∧
    (process_query query_id query_type params session_id now token_id
        fetched decrypted step s).2.fileFormat = .unknown ∧
    session_id ∉ (process_query query_id query_type params session_id now token_id
        fetched decrypted step s).2.activeSessions ∧
    (process_query query_id query_type params session_id now token_id
        fetched decrypted step s).2.clearCount = s.clearCount + 1 := by
  obtain ⟨s2, hcc, hs⟩ := process_query_snd_shape query_id query_type params
    session_id now token_id fetched decrypted step s
  rw [hs]
  refine ⟨rfl, rfl, ?_, by simp [removeSession, agentClearData, hcc]⟩
  simp [removeSession, List.mem_filter]

/-- C5: any proof whose (parsable) timestamp lies more than 3600
seconds before the verification time is reported invalid with the
expiry error — whatever its HMAC response and however long its
commitment and challenge are. -/
theorem verify_proof_expired (secret : Bytes) (now : Int) (proof : ZKProof) (t : Int)
    (ht : proof.timestamp = .valid t) (hage : now - t > 3600) :
    verify_proof secret now proof =
      { valid := false, proof_type := proof.proof_type,
        public_inputs := proof.public_inputs, verification_time := now,
        error := some "Proof has expired" } := by
  unfold verify_proof
  rw [ht]
  simp [hage]

/-- C5 (witness): a one-byte-commitment proof with a wrong response,
9000 seconds old, verifies as expired. -/
theorem verify_proof_expired_witness :
    (ZKProof.mk "boolean" [1] [2] [3] [("result", "true")] (.valid 1000) 1).timestamp =
      .valid 1000 ∧
    (10000 : Int) - 1000 > 3600 ∧
    verify_proof [9] 10000 (ZKProof.mk "boolean" [1] [2] [3] [("result", "true")] (.valid 1000) 1) =
      { valid := false, proof_type := "boolean",
        public_inputs := [("result", "true")], verification_time := 10000,
        error := some "Proof has expired" } :=
  ⟨rfl, by decide,
    verify_proof_expired [9] 10000
      (ZKProof.mk "boolean" [1] [2] [3] [("result", "true")] (.valid 1000) 1)
      1000 rfl (by decide)⟩

/-- C6 (counterexample): a proof whose commitment is 31 bytes but which
is 7200 seconds old is reported expired, not malformed — the expiry
check runs before the format check, so the claim fails for this proof. -/
theorem verify_proof_malformed_cex :
    (ZKProof.mk "boolean" (List.replicate 31 1) (List.replicate 32 2) [3] []
        (.valid 0) 1).commitment.length ≠ 32 ∧
    verify_proof [7] 7200
        (ZKProof.mk "boolean" (List.replicate 31 1) (List.replicate 32 2) [3] []
          (.valid 0) 1) =
      { valid := false, proof_type := "boolean", public_inputs := [],
        verification_time := 7200, error := some "Proof has expired" } ∧
    some "Proof has expired" ≠ some "Invalid proof format" :=
  ⟨by decide, rfl, by decide⟩

/-- C6 (amended): any proof with a parsable, unexpired timestamp whose
commitment or challenge is not exactly 32 bytes is reported invalid
with the malformed-proof error. -/
theorem verify_proof_malformed (secret : Bytes) (now : Int) (proof : ZKProof) (t : Int)
    (ht : proof.timestamp = .valid t) (hfresh : now - t ≤ 3600)
    (hlen : proof.commitment.length ≠ 32 ∨ proof.challenge.length ≠ 32) :
    verify_proof secret now proof =
      { valid := false, proof_type := proof.proof_type,
        public_inputs := proof.public_inputs, verification_time := now,
        error := some "Invalid proof format" } := by
  unfold verify_proof
  rw [ht]
  have hnot : ¬(now - t > 3600) := by omega
  simp only [hnot, if_false, reduceIte]
  rw [if_pos hlen]

/-- C6 (witness): a fresh proof with a 31-byte commitment is reported
with the invalid-format error. -/
theorem verify_proof_malformed_witness :
    (ZKProof.mk "boolean" (List.replicate 31 1) (List.replicate 32 2) [3] []
        (.valid 0) 1).timestamp = .valid 0 ∧
    (100 : Int) - 0 ≤ 3600 ∧
    (List.replicate 31 1 : Bytes).length ≠ 32 ∧
    verify_proof [7] 100
        (ZKProof.mk "boolean" (List.replicate 31 1) (List.replicate 32 2) [3] []
          (.valid 0) 1) =
      { valid := false, proof_type := "boolean", public_inputs := [],
        verification_time := 100, error := some "Invalid proof format" } :=
  ⟨rfl, by decide, by decide,
    verify_proof_malformed [7] 100
      (ZKProof.mk "boolean" (List.replicate 31 1) (List.replicate 32 2) [3] []
        (.valid 0) 1)
      0 rfl (by decide) (.inl (by decide))⟩

/-- C10: `verify_proof` is total — it is a function returning a
`ProofVerification` for every proof value — and the internal exception
representable in this embedding, an unparsable timestamp raising inside
the try block, is caught and returned as a `ProofVerification` with
`valid = false` and the exception text in `error`. -/
theorem verify_proof_catches_exceptions (secret : Bytes) (now : Int) (proof : ZKProof)
    (s : String) (hts : proof.timestamp = .invalid s) :
    verify_proof secret now proof =
      { valid := false, proof_type := proof.proof_type,
        public_inputs := proof.public_inputs, verification_time := now,
        error := some (fromisoformatError s) } := by
  unfold verify_proof
  rw [hts]

/-- C10 (witness): a proof whose timestamp string does not parse
verifies to `valid = false` with the ValueError text. -/
theorem verify_proof_catches_exceptions_witness :
    (ZKProof.mk "boolean" [1] [2] [3] [] (.invalid "not-a-date") 1).timestamp =
      .invalid "not-a-date" ∧
    verify_proof [7] 0 (ZKProof.mk "boolean" [1] [2] [3] [] (.invalid "not-a-date") 1) =
      { valid := false, proof_type := "boolean", public_inputs := [],
        verification_time := 0,
        error := some (fromisoformatError "not-a-date") } :=
  ⟨rfl,
    verify_proof_catches_exceptions [7] 0
      (ZKProof.mk "boolean" [1] [2] [3] [] (.invalid "not-a-date") 1)
      "not-a-date" rfl⟩

/-- A pairing pass halves the level length (rounding down). -/
theorem pairHash_length : ∀ l : List Bytes, (pairHash l).length = l.length / 2
  | [] => by simp [pairHash]
  | [_] => by simp [pairHash]
  | _ :: _ :: rest => by
    simp only [pairHash, List.length_cons, pairHash_length rest]
    omega

/-- On a level of length at least two, one loop iteration strictly
shrinks the level. -/
theorem merkleStep_length_lt (l : List Bytes) (h : 2 ≤ l.length) :
    (merkleStep l).length < l.length := by
  unfold merkleStep
  by_cases hodd : l.length % 2 = 1 <;>
    simp only [hodd, if_true, if_false, reduceIte, pairHash_length, List.length_append,
      List.length_cons, List.length_nil] <;> omega

/-- Any fuel at least the level length runs the Merkle loop to the same
result as the canonical fuel. -/
theorem merkleLoop_fuel : ∀ (f : Nat) (l : List Bytes), l.length ≤ f →
    merkleLoop f l = merkleLoop l.length l := by
  intro f
  induction f using Nat.strong_induction_on with
  | _ f ih =>
    intro l hl
    match f, hl with
    | 0, hl =>
      rw [List.eq_nil_of_length_eq_zero (Nat.le_zero.mp hl)]
      rfl
    | Nat.succ f, hl =>
      by_cases h1 : l.length ≤ 1
      · have e1 : merkleLoop (f + 1) l = l := by simp [merkleLoop, h1]
        have e2 : merkleLoop l.length l = l := by
          rcases hl2 : l.length with _ | n
          · rw [List.eq_nil_of_length_eq_zero hl2]
            rfl
          · have hn : n = 0 := by omega
            subst hn
            simp [merkleLoop, hl2]
        rw [e1, e2]
      · have h2 : 2 ≤ l.length := by omega
        have hlt := merkleStep_length_lt l h2
        have hsucc : ∀ g : Nat, merkleLoop (g + 1) l = merkleLoop g (merkleStep l) := by
          intro g
          simp [merkleLoop, h1]
        rw [hsucc f]
        have hlen : l.length = (l.length - 1) + 1 := by omega
        rw [hlen, hsucc (l.length - 1)]
        rw [ih f (by omega) (merkleStep l) (by omega),
          ih (l.length - 1) (by omega) (merkleStep l) (by omega)]

/-- C9: `get_merkle_root` returns the all-zero 32-byte value on an
empty aggregator; on a non-empty ordered proof list it is the Merkle
root of the commitment leaves, where a single leaf is its own root and
a level of two or more leaves is reduced by one loop iteration — an
odd-length level is padded by duplicating its last leaf exactly once,
and adjacent pairs are replaced by the hash of their concatenation —
and the computation is a pure function, so two calls on the same
ordered proof list return the same root. -/
theorem get_merkle_root_spec :
    get_merkle_root [] = List.replicate 32 0 ∧
    (∀ proofs : List ZKProof, proofs ≠ [] →
      get_merkle_root proofs = merkleRootOfLeaves (proofs.map (·.commitment))) ∧
    (∀ c : Bytes, merkleRootOfLeaves [c] = c) ∧
    (∀ leaves : List Bytes, 2 ≤ leaves.length →
      merkleRootOfLeaves leaves = merkleRootOfLeaves (merkleStep leaves)) ∧
    (∀ leaves : List Bytes, leaves.length % 2 = 1 →
      merkleStep leaves = pairHash (leaves ++ [leaves.getLastD []])) ∧
    (∀ leaves : List Bytes, leaves.length % 2 = 0 → merkleStep leaves = pairHash leaves) ∧
    (∀ (a b : Bytes) (rest : List Bytes),
      pairHash (a :: b :: rest) = sha256 (a ++ b) :: pairHash rest) ∧
    (∀ proofs : List ZKProof, get_merkle_root proofs = get_merkle_root proofs) := by
  refine ⟨rfl, ?_, fun c => rfl, ?_, ?_, ?_, fun a b rest => rfl, fun proofs => rfl⟩
  · intro proofs hne
    simp [get_merkle_root, hne]
  · intro leaves h2
    have h1 : ¬leaves.length ≤ 1 := by omega
    have hlt := merkleStep_length_lt leaves h2
    unfold merkleRootOfLeaves
    have hsucc : ∀ g : Nat, merkleLoop (g + 1) leaves = merkleLoop g (merkleStep leaves) := by
      intro g
      simp [merkleLoop, h1]
    have hlen : leaves.length = (leaves.length - 1) + 1 := by omega
    rw [hlen, hsucc (leaves.length - 1)]
    rw [merkleLoop_fuel (leaves.length - 1) (merkleStep leaves) (by omega)]
  · intro leaves hodd
    simp [merkleStep, hodd]
  · intro leaves heven
    simp [merkleStep, heven]

/-- C9 (witness): the characterisation applied at concrete inputs — a
three-proof aggregator reduces through a padded four-leaf level, and a
singleton level is its own root. -/
theorem get_merkle_root_spec_witness :
    get_merkle_root [ZKProof.mk "boolean" [1] [9] [3] [] (.valid 0) 1,
        ZKProof.mk "boolean" [2] [9] [3] [] (.valid 0) 1,
        ZKProof.mk "boolean" [3] [9] [3] [] (.valid 0) 1] =
      merkleRootOfLeaves [[1], [2], [3]] ∧
    merkleRootOfLeaves [[1], [2], [3]] = merkleRootOfLeaves (merkleStep [[1], [2], [3]]) ∧
    merkleStep [[1], [2], [3]] = pairHash [[1], [2], [3], [3]] ∧
    merkleRootOfLeaves [sha256 ([1] ++ [2]), sha256 ([3] ++ [3])] =
      merkleRootOfLeaves (merkleStep [sha256 ([1] ++ [2]), sha256 ([3] ++ [3])]) :=
  ⟨get_merkle_root_spec.2.1 _ (by decide),
    get_merkle_root_spec.2.2.2.1 [[1], [2], [3]] (by decide),
    by
      have := get_merkle_root_spec.2.2.2.2.1 [[1], [2], [3]] (by decide)
      simpa using this,
    get_merkle_root_spec.2.2.2.1 _ (by decide)⟩

/-- The presence bit of a target-less `check_snp_match` is exactly
membership of the lowercased rsID in the parsed map. -/
theorem check_snp_match_fst (d : ParsedData) (rsid : String) :
    (check_snp_match d rsid none).1 = (dictGet (pyLower rsid) d).isSome := by
  unfold check_snp_match lookup_snp
  cases h : dictGet (pyLower rsid) d <;> simp [h]

/-- The VARIANT_SEARCH result fold depends on the parsed data only
through key membership. -/
theorem variantFold_eq (d1 d2 : ParsedData)
    (h : ∀ k, (dictGet k d1).isSome = (dictGet k d2).isSome) :
    ∀ (rsids : List String) (acc : List (String × Bool)),
      rsids.foldl (fun acc r => dictInsert r (check_snp_match d1 r none).1 acc) acc =
        rsids.foldl (fun acc r => dictInsert r (check_snp_match d2 r none).1 acc) acc
  | [], _ => rfl
  | r :: rest, acc => by
    simp only [List.foldl_cons]
    rw [show (check_snp_match d1 r none).1 = (check_snp_match d2 r none).1 from by
      rw [check_snp_match_fst, check_snp_match_fst, h]]
    exact variantFold_eq d1 d2 h rest _

/-- C4: a VARIANT_SEARCH analysis returns only the per-rsID boolean map
and the aggregate count (the `variantSearch` constructor has no
genotype field), and it is blind to genotype values: for any two parsed
maps with the same key membership — however their genotype strings
differ — the output is identical. -/
theorem variant_search_genotype_blind (params : BountyParams) (d1 d2 : ParsedData)
    (h : ∀ k, (dictGet k d1).isSome = (dictGet k d2).isSome) :
    analyze_for_bounty d1 "VARIANT_SEARCH" params =
      analyze_for_bounty d2 "VARIANT_SEARCH" params := by
  unfold analyze_for_bounty
  simp only [String.reduceEq, reduceIte]
  rw [variantFold_eq d1 d2 h params.rsids []]

/-- C4 (witness): two single-record maps for rs12913832 with different
genotypes ("GG" vs "AA") give identical VARIANT_SEARCH output. -/
theorem variant_search_genotype_blind_witness :
    analyze_for_bounty [("rs12913832", ("15", 1, "GG"))] "VARIANT_SEARCH"
        (BountyParams.mk none none none ["rs12913832", "rs999"]) =
      analyze_for_bounty [("rs12913832", ("15", 1, "AA"))] "VARIANT_SEARCH"
        (BountyParams.mk none none none ["rs12913832", "rs999"]) :=
  variant_search_genotype_blind (BountyParams.mk none none none ["rs12913832", "rs999"])
    [("rs12913832", ("15", 1, "GG"))] [("rs12913832", ("15", 1, "AA"))]
    (by
      intro k
      by_cases hk : "rs12913832" = k <;> simp [dictGet, hk])

/-- The head of a stable descending insertion. -/
theorem insertDesc_head (x : String × Nat) (l : List (String × Nat)) :
    (insertDesc x l).head? =
      some (match l.head? with
        | none => x
        | some y => if y.2 ≤ x.2 then x else y) := by
  cases l with
  | nil => rfl
  | cons y ys => by_cases h : y.2 ≤ x.2 <;> simp [insertDesc, h]

/-- A stable descending insertion is never empty. -/
theorem insertDesc_ne_nil (x : String × Nat) (l : List (String × Nat)) :
    insertDesc x l ≠ [] := by
  cases l with
  | nil => simp [insertDesc]
  | cons y ys => by_cases h : y.2 ≤ x.2 <;> simp [insertDesc, h]

/-- The head of the stable descending sort is the first entry of
strictly highest confidence. -/
theorem stableSortDesc_head : ∀ l : List (String × Nat),
    (stableSortDesc l).head? = firstMaxPred l
  | [] => rfl
  | p :: ps => by
    show (insertDesc p (stableSortDesc ps)).head? = firstMaxPred (p :: ps)
    rw [insertDesc_head, stableSortDesc_head ps]
    cases hm : firstMaxPred ps with
    | none => simp [firstMaxPred, hm]
    | some q =>
      simp only [firstMaxPred, hm]
      rcases Nat.lt_or_ge p.2 q.2 with hlt | hge
      · rw [if_neg (by omega), if_pos hlt]
      · rw [if_pos (by omega), if_neg (by omega)]

/-- Sorting an empty prediction list is the only way to get an empty
sorted list. -/
theorem stableSortDesc_eq_nil : ∀ l : List (String × Nat), stableSortDesc l = [] → l = []
  | [], _ => rfl
  | p :: ps, h => absurd h (insertDesc_ne_nil p (stableSortDesc ps))

/-- C7: `predict_trait` returns nothing for a trait absent from the
catalogue, and nothing when no catalogued supporting rsID with a
recognized genotype is present (empty collected predictions);
otherwise it returns the prediction with strictly highest confidence
among the collected entries, ties broken in favour of the entry
collected first from the trait's ordered support list (the
`firstMaxPred` selection), with that entry's confidence. -/
theorem predict_trait_spec (d : ParsedData) (trait : String) :
    (dictGet trait TRAIT_SNPS = none → predict_trait d trait = none) ∧
    (∀ snp_ids, dictGet trait TRAIT_SNPS = some snp_ids →
      ((collectPredictions d snp_ids).2 = [] → predict_trait d trait = none) ∧
      (∀ p c, firstMaxPred (collectPredictions d snp_ids).2 = some (p, c) →
        predict_trait d trait = some
          { trait := trait, prediction := p, confidence := c,
            supporting_snps := (collectPredictions d snp_ids).1,
            description :=
              match dictGet (pyLower (snp_ids.headD "")) SNP_DATABASE with
              | some e => e.description
              | none => "" })) := by
  constructor
  · intro h
    unfold predict_trait
    rw [h]
  · intro ids hids
    constructor
    · intro hnil
      unfold predict_trait
      simp only [hids, hnil, stableSortDesc]
    · intro p c hfm
      have hhead := stableSortDesc_head (collectPredictions d ids).2
      rw [hfm] at hhead
      cases hsort : stableSortDesc (collectPredictions d ids).2 with
      | nil =>
        rw [hsort] at hhead
        exact absurd hhead (by simp)
      | cons q rest =>
        rw [hsort] at hhead
        simp only [List.head?_cons, Option.some.injEq] at hhead
        unfold predict_trait
        simp only [hids, hsort]
        rw [hhead]

/-- C7 (witness): with rs12913832 = AA (confidence 0.90) and
rs1800407 = TT (confidence 0.65) both present, the eye-colour
prediction is the 0.90-confidence "brown". -/
theorem predict_trait_spec_witness :
    predict_trait [("rs12913832", ("15", 1, "AA")), ("rs1800407", ("15", 2, "TT"))]
        "eye_color" =
      some
        { trait := "eye_color", prediction := "brown", confidence := 90,
          supporting_snps :=
            [SNPResult.mk "rs12913832" "15" 1 "AA" true (some "HERC2")
              (some "eye_color") (some "brown"),
             SNPResult.mk "rs1800407" "15" 2 "TT" true (some "OCA2")
              (some "eye_color") (some "blue_modifier")],
          description := "Primary determinant of blue vs brown eye color" } := by
  have h :=
    ((predict_trait_spec [("rs12913832", ("15", 1, "AA")), ("rs1800407", ("15", 2, "TT"))]
        "eye_color").2 ["rs12913832", "rs1800407"] rfl).2 "brown" 90 rfl
  exact h.trans (by rfl)

/-- Character order corresponds to code-point order. -/
theorem char_le_iff (a c : Char) : (a ≤ c) ↔ a.toNat ≤ c.toNat := by
  rw [Char.le_def]
  simp [UInt32.le_def, Char.toNat, UInt32.toNat, BitVec.le_def]

/-- Applying `Char.ofNat` to a valid scalar value round-trips through `toNat`. -/
theorem toNat_ofNat_valid (n : Nat) (h : n.isValidChar) : (Char.ofNat n).toNat = n := by
  simp [Char.ofNat, h, Char.ofNatAux, Char.toNat, UInt32.toNat, UInt32.ofNatCore]

/-- ASCII upper-casing is idempotent. -/
theorem charUpper_idem (c : Char) : charUpper (charUpper c) = charUpper c := by
  unfold charUpper
  by_cases h : 'a' ≤ c ∧ c ≤ 'z'
  · rw [if_pos h]
    have h97 : 97 ≤ c.toNat := (char_le_iff _ _).mp h.1
    have h122 : c.toNat ≤ 122 := (char_le_iff _ _).mp h.2
    have hv : (c.toNat - 32).isValidChar := by
      left
      omega
    have ht : (Char.ofNat (c.toNat - 32)).toNat = c.toNat - 32 := toNat_ofNat_valid _ hv
    rw [if_neg]
    intro hcon
    have h2 := (char_le_iff _ _).mp hcon.1
    rw [ht] at h2
    have : (97 : Nat) ≤ c.toNat - 32 := h2
    omega
  · rw [if_neg h, if_neg h]

/-- Python `str.upper` is idempotent. -/
theorem pyUpper_idem (s : String) : pyUpper (pyUpper s) = pyUpper s := by
  have hl : ∀ l : List Char, (l.map charUpper).map charUpper = l.map charUpper := by
    intro l
    induction l with
    | nil => rfl
    | cons c cs ih => simp [charUpper_idem, ih]
  exact congrArg String.mk (hl s.data)

/-- Looking a key up after a Python-dict assignment. -/
theorem dictGet_dictInsert {α : Type} (k k' : String) (v : α) :
    ∀ l : List (String × α),
      dictGet k (dictInsert k' v l) = if k' = k then some v else dictGet k l
  | [] => by
    by_cases h : k' = k <;> simp [dictGet, dictInsert, h]
  | (a, b) :: rest => by
    by_cases h1 : a = k'
    · by_cases h2 : k' = k <;> simp [dictInsert, dictGet, h1, h2]
    · by_cases h2 : k' = k
      · have hak : a ≠ k := fun hh => h1 (hh.trans h2.symm)
        simp [dictInsert, dictGet, h1, h2, hak, dictGet_dictInsert k k v rest]
      · simp [dictInsert, dictGet, h1, h2, dictGet_dictInsert k k' v rest]

/-- One parse step keeps every stored genotype uppercase for the two
formats that normalise case. -/
theorem parseLine_uppercase (fmt : GeneFileFormat)
    (hfmt : fmt = .twentyThreeAndMe ∨ fmt = .ancestry) (acc : ParsedData)
    (line : String) (hacc : GenoOK acc) : GenoOK (parseLine fmt acc line) := by
  intro k c p g
  unfold parseLine
  by_cases hskip : (pyStarts line "#" = true ∨ pyStrip line = "")
  · rw [if_pos hskip]
    exact hacc k c p g
  · rw [if_neg hskip]
    rcases hfmt with h | h <;> subst h
    · by_cases hlen : 4 ≤ (pySplitCh '\t' line).length
      · rw [if_pos hlen]
        cases hint : pyInt? (pyStrip ((pySplitCh '\t' line).getD 2 "")) with
        | none =>
          exact hacc k c p g
        | some pos =>
          intro hdg
          rw [dictGet_dictInsert] at hdg
          by_cases hk : pyLower (pyStrip ((pySplitCh '\t' line).getD 0 "")) = k
          · rw [if_pos hk] at hdg
            simp only [Option.some.injEq, Prod.mk.injEq] at hdg
            rw [← hdg.2.2]
            exact pyUpper_idem _
          · rw [if_neg hk] at hdg
            exact hacc k c p g hdg
      · rw [if_neg hlen]
        exact hacc k c p g
    · by_cases hlen : 5 ≤ (pySplitCh '\t' line).length
      · rw [if_pos hlen]
        cases hint : pyInt? (pyStrip ((pySplitCh '\t' line).getD 2 "")) with
        | none =>
          exact hacc k c p g
        | some pos =>
          intro hdg
          rw [dictGet_dictInsert] at hdg
          by_cases hk : pyLower (pyStrip ((pySplitCh '\t' line).getD 0 "")) = k
          · rw [if_pos hk] at hdg
            simp only [Option.some.injEq, Prod.mk.injEq] at hdg
            rw [← hdg.2.2]
            exact pyUpper_idem _
          · rw [if_neg hk] at hdg
            exact hacc k c p g hdg
      · rw [if_neg hlen]
        exact hacc k c p g

/-- Folding the per-line parser keeps every stored genotype uppercase
for the two case-normalising formats. -/
theorem parseFold_uppercase (fmt : GeneFileFormat)
    (hfmt : fmt = .twentyThreeAndMe ∨ fmt = .ancestry) :
    ∀ (lines : List String) (acc : ParsedData), GenoOK acc →
      GenoOK (lines.foldl (parseLine fmt) acc)
  | [], _, hacc => hacc
  | line :: rest, acc, hacc =>
    parseFold_uppercase fmt hfmt rest (parseLine fmt acc line)
      (parseLine_uppercase fmt hfmt acc line hacc)

/-- C8 (counterexample): a VCF file with lower-case REF/ALT alleles
stores the lower-case genotype "ag" — the VCF branch of `parse_file`
does not normalise case, so not every stored genotype is uppercase. -/
theorem parse_file_vcf_lowercase_cex :
    dictGet "rs123"
        (parse_file "##fileformat=VCFv4.2\n1\t100\trs123\ta\tg\t.\t.\t.\tGT\t0/1") =
      some ("1", 100, "ag") ∧
    pyUpper "ag" ≠ "ag" :=
  ⟨rfl, by decide⟩

/-- C8 (amended): every genotype stored by `parse_file` is uppercase
for content detected as 23andMe or Ancestry format; the VCF branch
copies the case of the file's REF/ALT allele fields unchanged, so its
stored genotypes are uppercase only when those fields are. -/
theorem parse_file_uppercase (content : String)
    (hfmt : detect_format content = .twentyThreeAndMe ∨
      detect_format content = .ancestry) :
    GenoOK (parse_file content) := by
  unfold parse_file
  refine parseFold_uppercase _ hfmt _ [] ?_
  intro k c p g h
  simp [dictGet] at h

/-- C8 (witness): a headerless tab-separated line with lower-case
alleles is detected as 23andMe and stored uppercase. -/
theorem parse_file_uppercase_witness :
    detect_format "rs1\t1\t1\tgg" = .twentyThreeAndMe ∧
    dictGet "rs1" (parse_file "rs1\t1\t1\tgg") = some ("1", 1, "GG") ∧
    pyUpper "GG" = "GG" :=
  ⟨rfl, rfl, parse_file_uppercase "rs1\t1\t1\tgg" (.inl rfl) "rs1" "1" 1 "GG" rfl⟩
